import Mathlib

/-!
Verification development for the git-auto-push repository.

The repository wraps `git`/`gh` invocations behind three front ends (a shell
script, batch scripts, and a VS Code extension).  The logic verified here is
the directory-classification and branch-synchronization core implemented in
`gitAutoPushCore.ts`, the multi-root workspace selection in `extension.ts`,
and the argument parsing of the standalone scripts.

Modelling conventions:
* Filesystem paths are canonical absolute POSIX paths, represented as their
  list of components below the root (`[]` is the filesystem root `/`).
  `path.join(p, name)` is `p ++ [name]`, `path.dirname p` is `p.dropLast`,
  and `path.parse(p).root` is `[]`.
* The Node `fs` API surface actually used by the code is modelled as an
  abstract `FileSystem` record; `none` models a thrown error
  (`ENOENT`, `EACCES`, ...).
* The command runner is modelled as a function `String → CommandResult`
  giving the result of executing a command line, mirroring the
  `runCommand` contract `{success, stdout, stderr, error?}`.
* JavaScript string operations (`includes`, `trim`, `split`, `toLowerCase`,
  `path.extname`) are embedded as executable functions over `List Char`.
-/

/-! ## JavaScript string primitives -/

/-- `leadsWith pat l` : `pat` is an initial segment of `l`
(helper for substring search). -/
def leadsWith : List Char → List Char → Bool
  | [], _ => true
  | _ :: _, [] => false
  | p :: ps, c :: cs => p == c && leadsWith ps cs

/-- `containsSub pat l` : `pat` occurs contiguously somewhere inside `l`. -/
def containsSub (pat : List Char) : List Char → Bool
  | [] => leadsWith pat []
  | c :: cs => leadsWith pat (c :: cs) || containsSub pat cs

/-- JavaScript `haystack.includes(pat)`. -/
def strContains (haystack pat : String) : Bool :=
  containsSub pat.data haystack.data

/-- The whitespace characters relevant to `String.prototype.trim` for the
ASCII command output handled by the code. -/
def isJsSpace (c : Char) : Bool :=
  c == ' ' || c == '\t' || c == '\n' || c == '\r'

/-- JavaScript `s.trim()` (ASCII whitespace). -/
def jsTrim (s : String) : String :=
  String.mk (((s.data.dropWhile isJsSpace).reverse.dropWhile isJsSpace).reverse)

/-- `result.stdout.trim().split('\n')[0] || ''` — the first line of the
trimmed output, or the empty string. -/
def firstLine (stdout : String) : String :=
  String.mk ((jsTrim stdout).data.takeWhile (fun c => !(c == '\n')))

/-- ASCII `toLowerCase`. -/
def toLowerStr (s : String) : String :=
  String.mk (s.data.map Char.toLower)

/-- Index of the last `.` in a character list (accumulator-passing scan). -/
def lastDotIdx : List Char → Nat → Option Nat → Option Nat
  | [], _, acc => acc
  | c :: rest, i, acc => lastDotIdx rest (i + 1) (if c == '.' then some i else acc)

/-- Node `path.extname` restricted to plain file names (directory entries
contain no separator): the suffix from the last `.`, or `""` when there is
no dot or the only dot is the leading character. -/
def extname (fileName : String) : String :=
  match lastDotIdx fileName.data 0 none with
  | none => ""
  | some 0 => ""
  | some i => String.mk (fileName.data.drop i)

/-- Render a component path as the absolute POSIX path string the
TypeScript code stores in `this.workspaceRoot`. -/
def pathToString (p : List String) : String :=
  "/" ++ String.intercalate "/" p

/-! ## Filesystem model -/

/-- The kind reported by `fs.statSync(...)`. -/
inductive EntryKind where
  | file
  | dir
  | other
deriving DecidableEq

/-- The slice of the Node `fs` API used by the classifier.  `none` models a
thrown error (missing path, permission denied, ...). -/
structure FileSystem where
  existsSync : List String → Bool
  readdirSync : List String → Option (List String)
  statKind : List String → Option EntryKind

/-! ## Directory classifier (`gitAutoPushCore.ts`) -/

/-- `GitAutoPushCore.isGitRepository`:
`existsSync(join(this.workspaceRoot, '.git'))` — an entry named `.git` of
any kind directly under the workspace root. -/
def isGitRepository (fs : FileSystem) (workspaceRoot : List String) : Bool :=
  fs.existsSync (workspaceRoot ++ [".git"])

/-- `GitAutoPushCore.isDirectoryEmpty`: the listing has zero entries; a
thrown listing error is caught and reported as `false`. -/
def isDirectoryEmpty (fs : FileSystem) (workspaceRoot : List String) : Bool :=
  match fs.readdirSync workspaceRoot with
  | some files => files.length == 0
  | none => false

/-- The `sourceExtensions` set of `GitAutoPushCore.hasSourceFiles`. -/
def sourceExtensions : List String :=
  [".py", ".js", ".ts", ".java", ".cpp", ".c", ".cs", ".php", ".rb",
   ".go", ".rs", ".swift", ".kt", ".scala", ".sh", ".bat", ".html",
   ".css", ".vue", ".jsx", ".tsx", ".json", ".xml", ".yaml", ".yml",
   ".md", ".txt", ".sql", ".r", ".m", ".pl"]

/-- The `configFiles` set of `GitAutoPushCore.hasSourceFiles`. -/
def configFiles : List String :=
  ["package.json", "requirements.txt", "Cargo.toml", "pom.xml",
   "build.gradle", "Makefile", "CMakeLists.txt", "setup.py",
   "pyproject.toml", "composer.json", "Gemfile", "go.mod"]

/-- The `commonSrcDirs` list of `GitAutoPushCore.hasSourceFiles`. -/
def commonSrcDirs : List String :=
  ["src", "lib", "app", "components", "modules"]

/-- The `for (const file of files)` loop body of `hasSourceFiles`.  A
`statSync` throw inside the loop propagates to the surrounding
`try`/`catch`, which returns `false` for the whole call. -/
def hasSourceFilesLoop (fs : FileSystem) (workspaceRoot : List String) :
    List String → Bool
  | [] => false
  | file :: rest =>
    match fs.statKind (workspaceRoot ++ [file]) with
    | none => false
    | some EntryKind.file =>
      if sourceExtensions.contains (toLowerStr (extname file))
          || configFiles.contains file then true
      else hasSourceFilesLoop fs workspaceRoot rest
    | some EntryKind.dir =>
      if commonSrcDirs.contains file then true
      else hasSourceFilesLoop fs workspaceRoot rest
    | some EntryKind.other => hasSourceFilesLoop fs workspaceRoot rest

/-- `GitAutoPushCore.hasSourceFiles`: scan the direct children only; any
listing failure degrades to `false`. -/
def hasSourceFiles (fs : FileSystem) (workspaceRoot : List String) : Bool :=
  match fs.readdirSync workspaceRoot with
  | none => false
  | some files => hasSourceFilesLoop fs workspaceRoot files

/-- The `windowsSystemPaths` fragments of `GitAutoPushCore.isSystemFolder`. -/
def windowsSystemPaths : List String :=
  ["c:\\windows", "c:\\program files", "c:\\program files (x86)",
   "c:\\programdata", "c:\\users\\public", "c:\\system volume information",
   "\\appdata\\", "\\temp\\", "\\tmp\\"]

/-- The `unixSystemPaths` fragments of `GitAutoPushCore.isSystemFolder`. -/
def unixSystemPaths : List String :=
  ["/bin", "/sbin", "/usr/bin", "/usr/sbin", "/etc", "/var",
   "/tmp", "/sys", "/proc", "/dev", "/boot", "/root"]

/-- `GitAutoPushCore.isSystemFolder`: the lowercased workspace path string
contains one of the platform-selected sensitive fragments. -/
def isSystemFolder (workspaceRoot : List String) (isWindows : Bool) : Bool :=
  let pathStr := toLowerStr (pathToString workspaceRoot)
  let systemPaths := if isWindows then windowsSystemPaths else unixSystemPaths
  systemPaths.any (fun sysPath => strContains pathStr sysPath)

/-- The `while (current !== root)` loop of `isNestedInGitRepo`, processed
by structural recursion on the reversed component list (each step of the
loop replaces `current` by `dirname(current)`, i.e. pops the last
component): test `existsSync(join(current, '.git'))` and step upward; the
loop stops (returning `false`) on reaching the filesystem root, which
itself is never tested. -/
def nestedWalkAux (fs : FileSystem) : List String → Bool
  | [] => false
  | c :: rest =>
    if fs.existsSync ((c :: rest).reverse ++ [".git"]) then true
    else nestedWalkAux fs rest

/-- The walk of `isNestedInGitRepo` on a path given root-first. -/
def nestedWalk (fs : FileSystem) (current : List String) : Bool :=
  nestedWalkAux fs current.reverse

/-- `GitAutoPushCore.isNestedInGitRepo`: a repository is never nested in
itself; otherwise walk upward starting at `dirname(workspaceRoot)`. -/
def isNestedInGitRepo (fs : FileSystem) (workspaceRoot : List String) : Bool :=
  if isGitRepository fs workspaceRoot then false
  else nestedWalk fs workspaceRoot.dropLast

/-- The `DirectoryAnalysis` interface of `gitAutoPushCore.ts`. -/
structure DirectoryAnalysis where
  isGitRepo : Bool
  isEmpty : Bool
  hasSourceFiles : Bool
  isSystemFolder : Bool
  isNestedRepo : Bool
  folderType : String
  gitInitRecommended : Bool
  warningMessage : Option String
  actionRecommendation : String
deriving DecidableEq

/-- `GitAutoPushCore.analyzeCurrentDirectory`: compute the five advisory
booleans, then assign `folderType`, `gitInitRecommended`,
`warningMessage`, and `actionRecommendation` through the six-branch
`if`/`else if` chain of the source. -/
def analyzeCurrentDirectory (fs : FileSystem) (workspaceRoot : List String)
    (isWindows : Bool) : DirectoryAnalysis :=
  let g := isGitRepository fs workspaceRoot
  let e := isDirectoryEmpty fs workspaceRoot
  let h := hasSourceFiles fs workspaceRoot
  let s := isSystemFolder workspaceRoot isWindows
  let n := isNestedInGitRepo fs workspaceRoot
  if g then
    { isGitRepo := g, isEmpty := e, hasSourceFiles := h, isSystemFolder := s,
      isNestedRepo := n, folderType := "existing_git_repo",
      gitInitRecommended := false, warningMessage := none,
      actionRecommendation := "このフォルダは既にGitリポジトリです" }
  else if s then
    { isGitRepo := g, isEmpty := e, hasSourceFiles := h, isSystemFolder := s,
      isNestedRepo := n, folderType := "system_folder",
      gitInitRecommended := false,
      warningMessage := some "⚠️ システムフォルダでのgit init は推奨されません",
      actionRecommendation := "システムフォルダ以外での実行をお勧めします" }
  else if n then
    { isGitRepo := g, isEmpty := e, hasSourceFiles := h, isSystemFolder := s,
      isNestedRepo := n, folderType := "nested_in_repo",
      gitInitRecommended := false,
      warningMessage := some "⚠️ 既存のGitリポジトリ内にネストされています",
      actionRecommendation := "サブモジュールとして追加するか、別の場所に移動してください" }
  else if e then
    { isGitRepo := g, isEmpty := e, hasSourceFiles := h, isSystemFolder := s,
      isNestedRepo := n, folderType := "empty_folder",
      gitInitRecommended := true, warningMessage := none,
      actionRecommendation := "空のフォルダです。新しいプロジェクトの開始に適しています" }
  else if h then
    { isGitRepo := g, isEmpty := e, hasSourceFiles := h, isSystemFolder := s,
      isNestedRepo := n, folderType := "source_project",
      gitInitRecommended := true, warningMessage := none,
      actionRecommendation := "ソースファイルが見つかりました。Gitリポジトリ化をお勧めします" }
  else
    { isGitRepo := g, isEmpty := e, hasSourceFiles := h, isSystemFolder := s,
      isNestedRepo := n, folderType := "general_folder",
      gitInitRecommended := true, warningMessage := none,
      actionRecommendation := "一般的なフォルダです。必要に応じてGitリポジトリ化できます" }

/-! ## Command runner results (`runCommand`) -/

/-- The error object Node `child_process.exec` passes to its callback on a
failed invocation: nonzero exit (`code`), kill by signal — including the
kill triggered by the `timeout` option — and the `maxBuffer` overflow are
all delivered this way. -/
structure ExecError where
  code : Option Int
  signal : Option String
  killed : Bool
deriving DecidableEq

/-- The `{ success, stdout, stderr, error? }` value `runCommand` resolves
with. -/
structure CommandResult where
  success : Bool
  stdout : String
  stderr : String
  errorDetail : Option ExecError
deriving DecidableEq

/-- The observable behaviour of one `exec` invocation: either the callback
fires (with an optional error), or `exec` itself throws synchronously. -/
inductive ExecOutcome where
  | callback (error : Option ExecError) (stdout stderr : String)
  | threw (message : String)

/-- The `timeout` option `GitAutoPushCore.runCommand` passes to `exec`
(milliseconds). -/
def execTimeoutMs : Nat := 5 * 60 * 1000

/-- The `maxBuffer` option `GitAutoPushCore.runCommand` passes to `exec`
(bytes). -/
def execMaxBufferBytes : Nat := 10 * 1024 * 1024

/-- `GitAutoPushCore.runCommand`: the returned promise is resolved — never
rejected — in both the `exec` callback (`success = !error`) and the
synchronous `catch` block (`success: false`, empty stdout, the error
message as stderr). -/
def runCommand : ExecOutcome → CommandResult
  | ExecOutcome.callback err out serr =>
    { success := err.isNone, stdout := out, stderr := serr, errorDetail := err }
  | ExecOutcome.threw msg =>
    { success := false, stdout := "", stderr := msg, errorDetail := none }

/-! ## Branch divergence detection and resolution -/

/-- `GitAutoPushCore.checkBranchDivergence`, parameterized by the result of
`runCommand('git status --porcelain=v1 --branch')`: a failed query is
`false`; otherwise classify the first output line by raw substring
containment of `"ahead"` and `"behind"`. -/
def checkBranchDivergence (result : CommandResult) : Bool :=
  if !result.success then false
  else
    let branchInfo := firstLine result.stdout
    if strContains branchInfo "ahead" && strContains branchInfo "behind" then
      true
    else if strContains branchInfo "behind" then
      true
    else if strContains branchInfo "ahead" then
      false
    else
      false

/-- `GitAutoPushCore.pullRebase`: run `git pull --rebase`; the resolution
result is the command's success.  The second component records the
commands invoked. -/
def pullRebase (env : String → CommandResult) : Bool × List String :=
  ((env "git pull --rebase").success, ["git pull --rebase"])

/-- `GitAutoPushCore.pullMerge`: run `git pull`. -/
def pullMerge (env : String → CommandResult) : Bool × List String :=
  ((env "git pull").success, ["git pull"])

/-- `GitAutoPushCore.forcePush`: query the current branch (defaulting to
`main` when the query fails), then run the lease-guarded force push; the
resolution result is the push command's success. -/
def forcePush (env : String → CommandResult) : Bool × List String :=
  let branchResult := env "git branch --show-current"
  let currentBranch :=
    if branchResult.success = true then jsTrim branchResult.stdout else "main"
  let cmd := "git push --force-with-lease origin " ++ currentBranch
  ((env cmd).success, ["git branch --show-current", cmd])

/-- `GitAutoPushCore.handleBranchDivergence`, parameterized by the quick
pick selection (`choice`, `none` = dialog dismissed; `some label` = the
chosen item label) and the secondary force-push warning answer
(`confirmed`).  Mirrors the `switch (choice.label)` of the source; the
list component records every command invoked through `runCommand`. -/
def handleBranchDivergence (env : String → CommandResult)
    (choice : Option String) (confirmed : Option String) : Bool × List String :=
  match choice with
  | none => (false, [])
  | some label =>
    match label with
    | "git pull --rebase" => pullRebase env
    | "git pull" => pullMerge env
    | "git push --force-with-lease" =>
      if confirmed = some "はい" then forcePush env else (false, [])
    | "スキップ" => (true, [])
    | _ => (false, [])

/-! ## `extension.ts` workspace-root selection -/

/-- The per-folder test in `GitAutoPush.getWorkspaceRoot` (multi-root
workspaces): `existsSync(gitPath) && statSync(gitPath).isDirectory()` —
unlike the core's `isGitRepository`, this one demands directory kind. -/
def wsFolderHasGitDir (fs : FileSystem) (folder : List String) : Bool :=
  let gitPath := folder ++ [".git"]
  fs.existsSync gitPath &&
    (match fs.statKind gitPath with
     | some EntryKind.dir => true
     | _ => false)

/-! ## Standalone script argument parsing -/

/-- The option variables of `git-auto-push.sh` / `git-auto-push.bat`. -/
structure ScriptOptions where
  commitMessage : String
  branch : String
  forcePushFlag : String
deriving DecidableEq

/-- Option state before any argument is consumed. -/
def scriptDefaults : ScriptOptions :=
  { commitMessage := "", branch := "", forcePushFlag := "" }

/-- The `while [[ $# -gt 0 ]] ... case $1 in` loop of `git-auto-push.sh`:
`-m|--message` and `-b|--branch` consume a value, `-f|--force` sets the
force flag, and any other argument prints `未知のオプション` and exits 1
(modelled by `none`).  A value-taking flag in final position dies on
`shift 2` under `set -e`, also a nonzero exit. -/
def parseArgsSh : List String → ScriptOptions → Option ScriptOptions
  | [], opts => some opts
  | arg :: rest, opts =>
    if arg = "-m" ∨ arg = "--message" then
      match rest with
      | v :: rest2 => parseArgsSh rest2 { opts with commitMessage := v }
      | [] => none
    else if arg = "-b" ∨ arg = "--branch" then
      match rest with
      | v :: rest2 => parseArgsSh rest2 { opts with branch := v }
      | [] => none
    else if arg = "-f" ∨ arg = "--force" then
      parseArgsSh rest { opts with forcePushFlag := "--force" }
    else
      none

/-- The `:parse_args` loop of the basic `git-auto-push.bat`: only the short
flags `-m`, `-b`, `-f` are recognized; every other argument is shifted
away and silently ignored. -/
def parseArgsBat : List String → ScriptOptions → ScriptOptions
  | [], opts => opts
  | arg :: rest, opts =>
    if arg = "-m" then
      match rest with
      | v :: rest2 => parseArgsBat rest2 { opts with commitMessage := v }
      | [] => { opts with commitMessage := "" }
    else if arg = "-b" then
      match rest with
      | v :: rest2 => parseArgsBat rest2 { opts with branch := v }
      | [] => { opts with branch := "" }
    else if arg = "-f" then
      parseArgsBat rest { opts with forcePushFlag := "--force" }
    else
      parseArgsBat rest opts

/-- The repository-path requirement of the GitHub-integrated batch variant:
`set "REPO_PATH=%1"` followed by `if "%REPO_PATH%"=="" ( ... exit /b 1 )`
— a missing or empty first argument is a hard error (`none`). -/
def ghBatRepoPath : List String → Option String
  | [] => none
  | p :: _ => if p = "" then none else some p

/-! ## Concrete filesystem fixtures -/

/-- An empty directory `/repo/sub` inside the repository `/repo`
(`/repo/.git` exists, `/repo/sub` lists no entries). -/
def fsNested : FileSystem :=
  { existsSync := fun p => p == ["repo", ".git"],
    readdirSync := fun p => if p == ["repo", "sub"] then some [] else none,
    statKind := fun _ => none }

/-- A directory `/ws` whose `.git` entry is a plain file, as git itself
creates for linked worktrees and submodules. -/
def fsGitFile : FileSystem :=
  { existsSync := fun p => p == ["ws", ".git"],
    readdirSync := fun p => if p == ["ws"] then some [".git"] else none,
    statKind := fun p => if p == ["ws", ".git"] then some EntryKind.file else none }

/-- A directory `/ws` with a `.git` subdirectory of directory kind; its
listing fails. -/
def fsGitDir : FileSystem :=
  { existsSync := fun p => p == ["ws", ".git"],
    readdirSync := fun _ => none,
    statKind := fun p => if p == ["ws", ".git"] then some EntryKind.dir else none }

/-- A command environment in which every command succeeds and reports
`main` as the current branch. -/
def envAllOk : String → CommandResult :=
  fun _ => { success := true, stdout := "main\n", stderr := "", errorDetail := none }

/-- The strict first-match priority rule stated by the specification:
existing repo > system folder > nested repo > empty > has-source-files >
general.  Stated from the spec for comparison against
`analyzeCurrentDirectory`. -/
def specPriorityLabel (isGitRepo isSystemFolder isNestedRepo isEmpty
    hasSourceFiles : Bool) : String :=
  if isGitRepo then "existing_git_repo"
  else if isSystemFolder then "system_folder"
  else if isNestedRepo then "nested_in_repo"
  else if isEmpty then "empty_folder"
  else if hasSourceFiles then "source_project"
  else "general_folder"

/-! ## Helper lemmas -/

/-- The upward walk succeeds exactly when some visited position — a
nonempty suffix of the reversed start path — has a `.git` entry. -/
theorem nestedWalkAux_iff (fs : FileSystem) (r : List String) :
    nestedWalkAux fs r = true ↔
      ∃ s, s ≠ [] ∧ s <:+ r ∧ fs.existsSync (s.reverse ++ [".git"]) = true := by
  induction r with
  | nil =>
    constructor
    · intro h
      simp [nestedWalkAux] at h
    · rintro ⟨s, hne, hsuf, _⟩
      exact absurd (List.suffix_nil.mp hsuf) hne
  | cons c rest ih =>
    constructor
    · intro h
      rw [nestedWalkAux] at h
      split at h
      · rename_i hx
        exact ⟨c :: rest, List.cons_ne_nil c rest, List.suffix_refl _, hx⟩
      · obtain ⟨s, hne, hsuf, hex⟩ := ih.mp h
        exact ⟨s, hne, hsuf.trans (List.suffix_cons c rest), hex⟩
    · rintro ⟨s, hne, hsuf, hex⟩
      rw [nestedWalkAux]
      rcases List.suffix_cons_iff.mp hsuf with h1 | h2
      · subst h1
        rw [if_pos hex]
      · have hrest : nestedWalkAux fs rest = true := ih.mpr ⟨s, hne, h2, hex⟩
        split
        · rfl
        · exact hrest

/-- A nonempty list is a prefix of `p.dropLast` exactly when it is a
proper prefix of `p`. -/
theorem prefix_dropLast_iff (q p : List String) (hq : q ≠ []) :
    q <+: p.dropLast ↔ (q ≠ p ∧ q <+: p) := by
  constructor
  · intro h
    refine ⟨?_, h.trans (List.dropLast_prefix p)⟩
    intro hqp
    subst hqp
    have hle := h.length_le
    rw [List.length_dropLast] at hle
    have hlen : q.length ≠ 0 := fun h0 => hq (List.length_eq_zero.mp h0)
    omega
  · rintro ⟨hne, hpre⟩
    have hlt : q.length < p.length := by
      rcases Nat.lt_or_ge q.length p.length with hlt | hge
      · exact hlt
      · exact absurd (hpre.eq_of_length (Nat.le_antisymm hpre.length_le hge)) hne
    have hq_take : q = p.take q.length := List.prefix_iff_eq_take.mp hpre
    rw [List.dropLast_eq_take]
    have h2 : (p.take (p.length - 1)).take q.length = p.take q.length := by
      rw [List.take_take]
      congr 1
      omega
    rw [hq_take, ← h2]
    exact List.take_prefix _ _

/-! ## Claim theorems -/

/-- Claim C2: `checkBranchDivergence`, given the first line of the
branch-status query output, returns `true` when both the "ahead" and
"behind" markers are present, `true` when only "behind" is present,
`false` when only "ahead" is present, `false` when neither is present,
and `false` when the status query itself fails. -/
theorem checkBranchDivergence_marker_table (r : CommandResult) :
    (r.success = false → checkBranchDivergence r = false) ∧
    (r.success = true → strContains (firstLine r.stdout) "ahead" = true →
      strContains (firstLine r.stdout) "behind" = true →
      checkBranchDivergence r = true) ∧
    (r.success = true → strContains (firstLine r.stdout) "behind" = true →
      strContains (firstLine r.stdout) "ahead" = false →
      checkBranchDivergence r = true) ∧
    (r.success = true → strContains (firstLine r.stdout) "ahead" = true →
      strContains (firstLine r.stdout) "behind" = false →
      checkBranchDivergence r = false) ∧
    (r.success = true → strContains (firstLine r.stdout) "ahead" = false →
      strContains (firstLine r.stdout) "behind" = false →
      checkBranchDivergence r = false) := by
  obtain ⟨s, out, serr, err⟩ := r
  cases s <;>
    cases ha : strContains (firstLine out) "ahead" <;>
      cases hb : strContains (firstLine out) "behind" <;>
        simp_all [checkBranchDivergence]

/-- Witness for C2: a first line carrying both markers on a successful
query is classified as divergence. -/
theorem checkBranchDivergence_marker_table_witness :
    checkBranchDivergence
      { success := true, stdout := "## main...origin/main [ahead 1, behind 2]",
        stderr := "", errorDetail := none } = true :=
  (checkBranchDivergence_marker_table
      { success := true, stdout := "## main...origin/main [ahead 1, behind 2]",
        stderr := "", errorDetail := none }).2.1 rfl (by decide) (by decide)

/-- Claim C3: `handleBranchDivergence` returns `false` with no command
invoked when the dialog is dismissed; `false` with no push command
invoked when force-push is chosen but the secondary confirmation is
declined; `true` with no command run for skip; and for rebase-pull,
merge-pull, and confirmed force-push exactly the success of the
underlying pull/push command. -/
theorem handleBranchDivergence_strategy_table (env : String → CommandResult)
    (confirmed : Option String) :
    handleBranchDivergence env none confirmed = (false, []) ∧
    (confirmed ≠ some "はい" →
      handleBranchDivergence env (some "git push --force-with-lease") confirmed
        = (false, [])) ∧
    handleBranchDivergence env (some "スキップ") confirmed = (true, []) ∧
    (handleBranchDivergence env (some "git pull --rebase") confirmed).1
      = (env "git pull --rebase").success ∧
    (handleBranchDivergence env (some "git pull") confirmed).1
      = (env "git pull").success ∧
    (handleBranchDivergence env (some "git push --force-with-lease")
        (some "はい")).1
      = (env ("git push --force-with-lease origin " ++
          (if (env "git branch --show-current").success = true
           then jsTrim (env "git branch --show-current").stdout
           else "main"))).success := by
  refine ⟨rfl, ?_, rfl, rfl, rfl, rfl⟩
  intro h
  show (if confirmed = some "はい" then forcePush env
        else ((false : Bool), ([] : List String))) = (false, [])
  rw [if_neg h]

/-- Witness for C3: with every command succeeding and the confirmation
declined (`none`), the force-push strategy resolves to `false` with no
command invoked. -/
theorem handleBranchDivergence_strategy_table_witness :
    handleBranchDivergence envAllOk (some "git push --force-with-lease") none
      = (false, []) :=
  (handleBranchDivergence_strategy_table envAllOk none).2.1 (by decide)

/-- Claim C8: `runCommand` always resolves to a `CommandResult` and never
rejects: the callback result reports `success = !error` (timeout kills and
`maxBuffer` overflows arrive as callback errors), a synchronous `exec`
throw resolves with `success = false`, and the enforced per-invocation
limits are the five-minute timeout and the ten-megabyte output buffer. -/
theorem runCommand_total_and_bounded (e : ExecError) (out serr msg : String) :
    runCommand (ExecOutcome.callback none out serr)
      = { success := true, stdout := out, stderr := serr, errorDetail := none } ∧
    (runCommand (ExecOutcome.callback (some e) out serr)).success = false ∧
    (runCommand (ExecOutcome.callback (some e) out serr)).stdout = out ∧
    (runCommand (ExecOutcome.threw msg))
      = { success := false, stdout := "", stderr := msg, errorDetail := none } ∧
    execTimeoutMs = 5 * 60 * 1000 ∧
    60 * 1000 ≤ execTimeoutMs ∧ execTimeoutMs ≤ 60 * 60 * 1000 ∧
    execMaxBufferBytes = 10 * 1024 * 1024 ∧
    1024 * 1024 ≤ execMaxBufferBytes :=
  ⟨rfl, rfl, rfl, rfl, rfl, by decide, by decide, rfl, by decide⟩

/-- Claim C10: divergence detection keys on raw substring containment over
the whole first status line: a branch line with no bracketed tracking
section at all (it does not even contain `[`) is classified as divergence
merely because the branch name contains "behind", and a branch name
containing "ahead" is classified as ahead-only. -/
theorem checkBranchDivergence_incidental_substrings :
    strContains "## feature/behind-rework...origin/feature/behind-rework" "["
      = false ∧
    checkBranchDivergence
      { success := true,
        stdout := "## feature/behind-rework...origin/feature/behind-rework",
        stderr := "", errorDetail := none } = true ∧
    checkBranchDivergence
      { success := true, stdout := "## ahead-fix...origin/ahead-fix",
        stderr := "", errorDetail := none } = false :=
  ⟨by decide, by decide, by decide⟩

/-- Counterexample to C6 as stated: in a directory whose `.git` entry is a
plain file (as git creates for linked worktrees and submodules) the core
still reports a git repository — the check does not require directory
kind. -/
theorem isGitRepository_kind_counterexample :
    isGitRepository fsGitFile ["ws"] = true ∧
    fsGitFile.statKind (["ws"] ++ [".git"]) = some EntryKind.file ∧
    wsFolderHasGitDir fsGitFile ["ws"] = false :=
  ⟨by decide, by decide, by decide⟩

/-- Claim C6 as amended: the core's `isGitRepository` is exactly bare
`existsSync` on the `.git` entry, regardless of the entry's stat kind;
the directory-kind requirement belongs only to `getWorkspaceRoot`'s
multi-root scan in `extension.ts`, whose test is strictly stronger. -/
theorem isGitRepository_any_entry_kind (fs : FileSystem) (p : List String) :
    (isGitRepository fs p = fs.existsSync (p ++ [".git"])) ∧
    (∀ fs2 : FileSystem, fs2.existsSync = fs.existsSync →
      isGitRepository fs2 p = isGitRepository fs p) ∧
    (wsFolderHasGitDir fs p = true →
      isGitRepository fs p = true ∧
      fs.statKind (p ++ [".git"]) = some EntryKind.dir) := by
  refine ⟨rfl, ?_, ?_⟩
  · intro fs2 h2
    simp only [isGitRepository, h2]
  · intro h
    simp only [wsFolderHasGitDir, Bool.and_eq_true] at h
    obtain ⟨h1, h2⟩ := h
    refine ⟨h1, ?_⟩
    revert h2
    cases hk : fs.statKind (p ++ [".git"]) with
    | none => simp
    | some k => cases k <;> simp

/-- Witness for amended C6: a `.git` entry of directory kind satisfies the
extension's check, hence the core's. -/
theorem isGitRepository_any_entry_kind_witness :
    isGitRepository fsGitDir ["ws"] = true :=
  ((isGitRepository_any_entry_kind fsGitDir ["ws"]).2.2 (by decide)).1

/-- Counterexample to C9 as stated: the shell script does not accept — let
alone require — a positional repository path (any positional argument is
the `*)` hard-error case), and the basic batch script does not recognize
the long flag `--message`. -/
theorem script_positional_path_counterexample :
    parseArgsSh ["/path/to/repo"] scriptDefaults = none ∧
    parseArgsBat ["--message", "hello"] scriptDefaults = scriptDefaults :=
  ⟨by decide, by decide⟩

/-- Claim C9 as amended: only the GitHub-integrated batch variant requires
a positional repository path; the shell script accepts `-m` and
`--message`, `-b` and `--branch`, `-f` and `--force`, and exits nonzero
on every other argument (including a positional path), while the basic
batch script recognizes only the short flags `-m`, `-b`, `-f` and
silently ignores anything else. -/
theorem script_arg_parsing_amended (a v br : String) (rest : List String)
    (o : ScriptOptions) :
    (a ≠ "-m" → a ≠ "--message" → a ≠ "-b" → a ≠ "--branch" → a ≠ "-f" →
      a ≠ "--force" → parseArgsSh (a :: rest) o = none) ∧
    (parseArgsSh ["-m", v, "--branch", br, "--force"] o =
      some { commitMessage := v, branch := br, forcePushFlag := "--force" }) ∧
    (a ≠ "-m" → a ≠ "-b" → a ≠ "-f" →
      parseArgsBat (a :: rest) o = parseArgsBat rest o) ∧
    (parseArgsBat ["-m", v, "-b", br, "-f"] o =
      { commitMessage := v, branch := br, forcePushFlag := "--force" }) ∧
    ghBatRepoPath [] = none ∧
    (a ≠ "" → ghBatRepoPath (a :: rest) = some a) := by
  refine ⟨?_, rfl, ?_, rfl, rfl, ?_⟩
  · intro h1 h2 h3 h4 h5 h6
    cases rest with
    | nil => simp [parseArgsSh, h1, h2, h3, h4, h5, h6]
    | cons b bs => simp [parseArgsSh, h1, h2, h3, h4, h5, h6]
  · intro h1 h2 h3
    cases rest with
    | nil => simp [parseArgsBat, h1, h2, h3]
    | cons b bs => simp [parseArgsBat, h1, h2, h3]
  · intro h
    simp [ghBatRepoPath, h]

/-- Witness for amended C9: a stray positional argument makes the shell
parser fail, while the GitHub batch variant accepts a leading repository
path. -/
theorem script_arg_parsing_amended_witness :
    parseArgsSh ["extra-positional"] scriptDefaults = none ∧
    ghBatRepoPath ["/repo", "-f"] = some "/repo" :=
  ⟨(script_arg_parsing_amended "extra-positional" "" "" [] scriptDefaults).1
      (by decide) (by decide) (by decide) (by decide) (by decide) (by decide),
   (script_arg_parsing_amended "/repo" "" "" ["-f"] scriptDefaults).2.2.2.2.2
      (by decide)⟩

/-- Claim C1: `folderType` is assigned by testing the advisory booleans in
the strict priority order existing-git-repo > system-folder > nested-repo
> empty > has-source-files > general with first match winning (so the
analysis carries exactly the one first-matching label); in particular an
empty directory without git metadata of its own, not a system folder,
lying inside another repository is `nested_in_repo`, not `empty_folder`. -/
theorem analyze_folder_type_priority (fs : FileSystem) (p : List String)
    (w : Bool) :
    ((analyzeCurrentDirectory fs p w).folderType =
      specPriorityLabel (analyzeCurrentDirectory fs p w).isGitRepo
        (analyzeCurrentDirectory fs p w).isSystemFolder
        (analyzeCurrentDirectory fs p w).isNestedRepo
        (analyzeCurrentDirectory fs p w).isEmpty
        (analyzeCurrentDirectory fs p w).hasSourceFiles) ∧
    ((analyzeCurrentDirectory fs p w).isGitRepo = false →
     (analyzeCurrentDirectory fs p w).isSystemFolder = false →
     (analyzeCurrentDirectory fs p w).isNestedRepo = true →
     (analyzeCurrentDirectory fs p w).isEmpty = true →
       (analyzeCurrentDirectory fs p w).folderType = "nested_in_repo" ∧
       (analyzeCurrentDirectory fs p w).folderType ≠ "empty_folder") := by
  simp only [analyzeCurrentDirectory]
  cases hg : isGitRepository fs p <;>
    cases hs : isSystemFolder p w <;>
      cases hn : isNestedInGitRepo fs p <;>
        cases he : isDirectoryEmpty fs p <;>
          cases hh : hasSourceFiles fs p <;>
            simp [specPriorityLabel]

/-- Witness for C1: the concrete empty directory nested inside a
repository is classified `nested_in_repo` and not `empty_folder`. -/
theorem analyze_folder_type_priority_witness :
    (analyzeCurrentDirectory fsNested ["repo", "sub"] false).folderType
        = "nested_in_repo" ∧
    (analyzeCurrentDirectory fsNested ["repo", "sub"] false).folderType
        ≠ "empty_folder" :=
  (analyze_folder_type_priority fsNested ["repo", "sub"] false).2
    (by decide) (by decide) (by decide) (by decide)

/-- Claim C4: `gitInitRecommended` holds exactly for the folder types
`empty_folder`, `source_project`, `general_folder`; `warningMessage` is
populated exactly for `system_folder` and `nested_in_repo`; and any
directory with a `.git` entry is `existing_git_repo` with
`gitInitRecommended = false` regardless of other contents. -/
theorem analyze_recommendation_fields (fs : FileSystem) (p : List String)
    (w : Bool) :
    ((analyzeCurrentDirectory fs p w).gitInitRecommended = true ↔
      ((analyzeCurrentDirectory fs p w).folderType = "empty_folder" ∨
       (analyzeCurrentDirectory fs p w).folderType = "source_project" ∨
       (analyzeCurrentDirectory fs p w).folderType = "general_folder")) ∧
    ((analyzeCurrentDirectory fs p w).warningMessage ≠ none ↔
      ((analyzeCurrentDirectory fs p w).folderType = "system_folder" ∨
       (analyzeCurrentDirectory fs p w).folderType = "nested_in_repo")) ∧
    (fs.existsSync (p ++ [".git"]) = true →
      (analyzeCurrentDirectory fs p w).folderType = "existing_git_repo" ∧
      (analyzeCurrentDirectory fs p w).gitInitRecommended = false) := by
  simp only [analyzeCurrentDirectory]
  cases hg : isGitRepository fs p <;>
    cases hs : isSystemFolder p w <;>
      cases hn : isNestedInGitRepo fs p <;>
        cases he : isDirectoryEmpty fs p <;>
          cases hh : hasSourceFiles fs p <;>
            simp_all [isGitRepository]

/-- Witness for C4: the concrete directory with a `.git` subdirectory is
`existing_git_repo` with `gitInitRecommended = false`. -/
theorem analyze_recommendation_fields_witness :
    (analyzeCurrentDirectory fsGitDir ["ws"] false).folderType
        = "existing_git_repo" ∧
    (analyzeCurrentDirectory fsGitDir ["ws"] false).gitInitRecommended
        = false :=
  (analyze_recommendation_fields fsGitDir ["ws"] false).2.2 (by decide)

/-- Claim C7: the classifier is total and never raises: a failed directory
listing makes `isEmpty` and `hasSourceFiles` evaluate to `false`, and
`analyzeCurrentDirectory` always returns a complete analysis — its
`folderType` is one of the six labels, never the placeholder `unknown`,
and an action recommendation is always set. -/
theorem analyze_total_listing_failure_defaults (fs : FileSystem)
    (p : List String) (w : Bool) :
    (fs.readdirSync p = none →
      isDirectoryEmpty fs p = false ∧ hasSourceFiles fs p = false) ∧
    ((analyzeCurrentDirectory fs p w).folderType = "existing_git_repo" ∨
     (analyzeCurrentDirectory fs p w).folderType = "system_folder" ∨
     (analyzeCurrentDirectory fs p w).folderType = "nested_in_repo" ∨
     (analyzeCurrentDirectory fs p w).folderType = "empty_folder" ∨
     (analyzeCurrentDirectory fs p w).folderType = "source_project" ∨
     (analyzeCurrentDirectory fs p w).folderType = "general_folder") ∧
    (analyzeCurrentDirectory fs p w).folderType ≠ "unknown" ∧
    (analyzeCurrentDirectory fs p w).actionRecommendation ≠ "" := by
  refine ⟨?_, ?_⟩
  · intro h
    constructor
    · simp [isDirectoryEmpty, h]
    · simp [hasSourceFiles, h]
  · simp only [analyzeCurrentDirectory]
    cases hg : isGitRepository fs p <;>
      cases hs : isSystemFolder p w <;>
        cases hn : isNestedInGitRepo fs p <;>
          cases he : isDirectoryEmpty fs p <;>
            cases hh : hasSourceFiles fs p <;>
              simp

/-- Witness for C7: on the concrete filesystem whose listing of `/ws`
fails, both probes degrade to `false`. -/
theorem analyze_total_listing_failure_defaults_witness :
    isDirectoryEmpty fsGitDir ["ws"] = false ∧
    hasSourceFiles fsGitDir ["ws"] = false :=
  (analyze_total_listing_failure_defaults fsGitDir ["ws"] false).1 (by decide)

/-- Claim C5: for a directory that is not itself a git repository,
`isNestedInGitRepo` is true exactly when some strict ancestor below the
filesystem root (a nonempty proper prefix of the path) has a `.git`
entry; the walk stops at the filesystem root (the root itself is not
probed, so no match by the root yields `false`), and it is skipped
entirely when the directory is itself a repository. -/
theorem isNestedInGitRepo_ancestor_chain (fs : FileSystem) (p : List String) :
    (isGitRepository fs p = true → isNestedInGitRepo fs p = false) ∧
    (isGitRepository fs p = false →
      (isNestedInGitRepo fs p = true ↔
        ∃ q, q ≠ [] ∧ q ≠ p ∧ q <+: p ∧
          fs.existsSync (q ++ [".git"]) = true)) := by
  constructor
  · intro h
    simp [isNestedInGitRepo, h]
  · intro h
    unfold isNestedInGitRepo nestedWalk
    rw [h]
    simp only [Bool.false_eq_true, if_false]
    rw [nestedWalkAux_iff]
    constructor
    · rintro ⟨s, hne, hsuf, hex⟩
      have hqne : s.reverse ≠ [] := by simpa using hne
      have hqpre : s.reverse <+: p.dropLast :=
        List.reverse_suffix.mp (by simpa using hsuf)
      obtain ⟨hnep, hpre⟩ := (prefix_dropLast_iff s.reverse p hqne).mp hqpre
      exact ⟨s.reverse, hqne, hnep, hpre, hex⟩
    · rintro ⟨q, hqne, hqnep, hqpre, hex⟩
      have hqd : q <+: p.dropLast :=
        (prefix_dropLast_iff q p hqne).mpr ⟨hqnep, hqpre⟩
      refine ⟨q.reverse, by simpa using hqne, ?_, by simpa using hex⟩
      exact List.reverse_suffix.mpr hqd

/-- Witness for C5: the directory `/repo/sub` is not a repository and its
ancestor `/repo` has a `.git` entry, so it is reported as nested. -/
theorem isNestedInGitRepo_ancestor_chain_witness :
    isNestedInGitRepo fsNested ["repo", "sub"] = true :=
  ((isNestedInGitRepo_ancestor_chain fsNested ["repo", "sub"]).2
      (by decide)).mpr
    ⟨["repo"], by decide, by decide, by decide, by decide⟩
